import Mathlib

/-!
Verification development for the `runrgateway` Python SDK
(`sdk-py/runrgateway`): a shallow embedding of `errors.py`,
`utils/retry.py`, and the dispatch logic of `client.py`, together with
theorems settling the specification claims about error classification,
retry behaviour, backoff delays, and the client token-age gate.

Modelling conventions:
* Machine integers are `Int`/`Nat` (no overflow is relevant here);
  Python floats in the delay computation are modelled as `ℚ` (all the
  constants involved are exactly representable).
* Python exceptions are values: fallible functions return `Except`.
* The single random draw `random.random()` in the backoff computation is
  modelled as an explicit parameter `r : ℚ` (one draw per attempt,
  supplied as a stream `rs : Nat → ℚ`); the draw satisfies `0 ≤ r < 1`.
-/

namespace RunrGateway

/-! ### String helpers

Executable models of the Python string operations used by the source:
`str.lower`, the substring test (`needle in hay`), and `int(s)` on a
string (ASCII decimal model: optional surrounding whitespace, optional
sign, one or more digits). -/

/-- `needle.isPrefixOf hay` on character lists. -/
def isPre : List Char → List Char → Bool
  | [], _ => true
  | _ :: _, [] => false
  | c :: cs, d :: ds => c == d && isPre cs ds

/-- Does `needle` occur as a contiguous sublist of `hay`? -/
def hasSub (needle : List Char) : List Char → Bool
  | [] => isPre needle []
  | c :: t => isPre needle (c :: t) || hasSub needle t

/-- Python `needle in hay` for strings. -/
def strContains (hay needle : String) : Bool :=
  hasSub needle.toList hay.toList

/-- Python `str.lower()` (ASCII model). -/
def strLower (s : String) : String :=
  s.map Char.toLower

/-- Decimal digits to a number; `none` on the empty list or a non-digit. -/
def digitsToNat : List Char → Option Nat
  | [] => none
  | cs =>
    cs.foldl
      (fun acc c =>
        match acc with
        | none => none
        | some n => if c.isDigit then some (n * 10 + (c.toNat - 48)) else none)
      (some 0)

/-- Python `int(s)` on a string (ASCII decimal model); `none` models the
`ValueError` raised on an unparseable literal. -/
def pyInt (s : String) : Option Int :=
  let cs := ((s.toList.dropWhile Char.isWhitespace).reverse.dropWhile Char.isWhitespace).reverse
  match cs with
  | '-' :: rest => (digitsToNat rest).map (fun n => -(n : Int))
  | '+' :: rest => (digitsToNat rest).map (fun n => (n : Int))
  | rest => (digitsToNat rest).map (fun n => (n : Int))

/-! ### `errors.py` — the Gateway error taxonomy

The Python source is a class hierarchy rooted at `GatewayError`; it is
modelled as one structure carrying a discriminant `kind` (standing for
the dynamic class, i.e. what `isinstance` inspects) plus all fields any
subclass sets.  Each Python `__init__` becomes a constructor function
with the same name and argument order. -/

/-- The dynamic class of a raised Gateway error (`generic` is the base
class `GatewayError` itself). -/
inductive ErrorKind
  | generic
  | auth
  | policy
  | rateLimit
  | upstream
  | network
  | token
deriving DecidableEq, Repr

/-- A Gateway SDK error value (`errors.py`).  `retry_after` is set only
by the rate-limit constructor; `original_error` only by the network
constructor. -/
structure GatewayError where
  kind : ErrorKind
  message : String
  status_code : Option Int
  code : Option String
  retry_after : Option Int
  original_error : Option String
deriving DecidableEq, Repr

/-- `GatewayError(message, status_code, code)` — the base-class
constructor (used directly by the source for generic errors and for the
`NETWORK_ERROR`-coded error raised in `client._make_request`). -/
def GatewayError.base (message : String) (status_code : Option Int := none)
    (code : Option String := none) : GatewayError :=
  ⟨ErrorKind.generic, message, status_code, code, none, none⟩

/-- `GatewayAuthError(message, status_code)`. -/
def GatewayAuthError (message : String) (status_code : Option Int := none) : GatewayError :=
  ⟨ErrorKind.auth, message, status_code, some "AUTH_ERROR", none, none⟩

/-- `GatewayPolicyError(message, status_code)`. -/
def GatewayPolicyError (message : String) (status_code : Option Int := none) : GatewayError :=
  ⟨ErrorKind.policy, message, status_code, some "POLICY_ERROR", none, none⟩

/-- `GatewayRateLimitError(message, retry_after, status_code)`. -/
def GatewayRateLimitError (message : String) (retry_after : Option Int := none)
    (status_code : Option Int := none) : GatewayError :=
  ⟨ErrorKind.rateLimit, message, status_code, some "RATE_LIMIT_ERROR", retry_after, none⟩

/-- `GatewayUpstreamError(message, status_code)`. -/
def GatewayUpstreamError (message : String) (status_code : Option Int := none) : GatewayError :=
  ⟨ErrorKind.upstream, message, status_code, some "UPSTREAM_ERROR", none, none⟩

/-- `GatewayNetworkError(message, original_error)`. -/
def GatewayNetworkError (message : String) (original_error : Option String := none) :
    GatewayError :=
  ⟨ErrorKind.network, message, none, some "NETWORK_ERROR", none, original_error⟩

/-- `GatewayTokenError(message, status_code)`. -/
def GatewayTokenError (message : String) (status_code : Option Int := none) : GatewayError :=
  ⟨ErrorKind.token, message, status_code, some "TOKEN_ERROR", none, none⟩

/-- A raised Python exception as seen by the retry loop: either a
`GatewayError` or any other exception (carrying its type name and
message), e.g. the `ValueError` out of `int()`. -/
inductive Exc
  | gw (e : GatewayError)
  | py (exnType : String) (msg : String)
deriving DecidableEq, Repr

/-- `create_error_from_response(status_code, error_message, retry_after)`
(`errors.py`).  The `Except.error` case models the uncaught `ValueError`
raised by `int(retry_after)` on a non-empty unparseable header value
(note `if retry_after` is Python truthiness, so `None` and `""` both
skip the parse). -/
def create_error_from_response (status_code : Int) (error_message : String)
    (retry_after : Option String := none) : Except Exc GatewayError :=
  if status_code = 401 ∨ status_code = 403 then
    Except.ok (GatewayAuthError error_message (some status_code))
  else if status_code = 429 then
    match retry_after with
    | none => Except.ok (GatewayRateLimitError error_message none (some status_code))
    | some s =>
      if s = "" then Except.ok (GatewayRateLimitError error_message none (some status_code))
      else
        match pyInt s with
        | some n => Except.ok (GatewayRateLimitError error_message (some n) (some status_code))
        | none => Except.error (Exc.py "ValueError" s)
  else if status_code = 400 then
    if strContains (strLower error_message) "policy" ∨
        strContains (strLower error_message) "scope" then
      Except.ok (GatewayPolicyError error_message (some status_code))
    else
      Except.ok (GatewayError.base error_message (some status_code))
  else if status_code = 502 ∨ status_code = 503 ∨ status_code = 504 then
    Except.ok (GatewayUpstreamError error_message (some status_code))
  else
    Except.ok (GatewayError.base error_message (some status_code))

/-! ### `utils/retry.py` — retry with exponential backoff -/

/-- `RetryOptions` with the source's defaults. -/
structure RetryOptions where
  max_retries : Nat := 3
  base_delay : ℚ := 1
  max_delay : ℚ := 10
  jitter : Bool := true
deriving DecidableEq, Repr

/-- `is_retryable_error(error)` (`utils/retry.py`).  The `isinstance`
tests become tests on `kind`; note the source tests the *code* string
for network errors and the guard `if error.status_code and ...` (a
`status_code` of `0` is falsy, but `0 >= 500` is false anyway, so the
truthiness test is behaviourally the same as the `match`). -/
def is_retryable_error (error : GatewayError) : Bool :=
  if error.kind = ErrorKind.rateLimit then false
  else if error.code = some "NETWORK_ERROR" then true
  else if error.kind = ErrorKind.upstream then true
  else
    match error.status_code with
    | some s => decide (500 ≤ s)
    | none => false

/-- `calculate_delay(attempt, options)` (`utils/retry.py`), with the
draw of `random.random()` passed explicitly as `r`. -/
def calculate_delay (attempt : Nat) (options : RetryOptions) (r : ℚ) : ℚ :=
  let delay := min (options.base_delay * 2 ^ attempt) options.max_delay
  if options.jitter then
    let jitter := delay * (1 / 4) * (r - 1 / 2)
    max 0 (delay + jitter)
  else
    delay

/-- The condition under which `with_retry` re-raises instead of
retrying a non-final attempt: `isinstance(error, GatewayError) and not
is_retryable_error(error)`. -/
def excRetryBlocked : Exc → Bool
  | Exc.gw g => !is_retryable_error g
  | Exc.py _ _ => false

/-- Observable outcome of one `with_retry` invocation: how many times
the operation was invoked, the backoff delays slept (in order), and the
returned value or surfaced exception. -/
structure RetryOutcome (α : Type) where
  calls : Nat
  delays : List ℚ
  result : Except Exc α
deriving Repr

/-- The body of `with_retry`'s `for attempt in range(max_retries + 1)`
loop, starting at attempt index `attempt` with `fuel` loop iterations
remaining after the current one (`fuel = max_retries - attempt` on
every reachable call; the `fuel = 0` fallback in the retry branch is as
unreachable as the trailing `raise last_error` in the source).  The
operation `fn` is given the attempt index as explicit state (in Python
`fn` is a stateful closure); `rs n` is the `random.random()` draw used
for the backoff after attempt `n`. -/
def retryLoop {α : Type} (fn : Nat → Except Exc α) (opts : RetryOptions) (rs : Nat → ℚ) :
    Nat → Nat → RetryOutcome α
  | fuel, attempt =>
    match fn attempt with
    | Except.ok v => { calls := attempt + 1, delays := [], result := Except.ok v }
    | Except.error e =>
      if attempt = opts.max_retries then
        { calls := attempt + 1, delays := [], result := Except.error e }
      else if excRetryBlocked e then
        { calls := attempt + 1, delays := [], result := Except.error e }
      else
        match fuel with
        | 0 => { calls := attempt + 1, delays := [], result := Except.error e }
        | f + 1 =>
          let rest := retryLoop fn opts rs f (attempt + 1)
          { calls := rest.calls,
            delays := calculate_delay attempt opts (rs attempt) :: rest.delays,
            result := rest.result }

/-- `with_retry(fn, options)` (`utils/retry.py`). -/
def with_retry {α : Type} (fn : Nat → Except Exc α) (opts : RetryOptions) (rs : Nat → ℚ) :
    RetryOutcome α :=
  retryLoop fn opts rs opts.max_retries 0

/-- The list of backoff delays slept when attempts
`attempt, attempt+1, …, attempt+fuel` all fail with a retried error. -/
def delaysFrom (opts : RetryOptions) (rs : Nat → ℚ) : Nat → Nat → List ℚ
  | _, 0 => []
  | attempt, f + 1 =>
    calculate_delay attempt opts (rs attempt) :: delaysFrom opts rs (attempt + 1) f

/-! ### `client.py` — the Gateway client's proxy dispatch

The claims about the client concern what happens *before* any HTTP
request leaves the process, so the boundary of the model is
`_make_request`: the environment `GatewayEnv` answers the two endpoints
the proxy operations use, and every call to it is recorded as a `PStep`
in the returned trace ("the transport is invoked zero times" is exactly
"the trace is `[]`").  Response-body details beyond the fields the
client reads are carried as a small JSON value type. -/

/-- A JSON value (request parameters and response bodies). -/
inductive Json
  | null
  | bool (b : Bool)
  | num (n : Int)
  | str (s : String)
  | arr (xs : List Json)
  | obj (kvs : List (String × Json))

/-- Dictionary lookup on a JSON object; a missing key is modelled as
`null` (the source would raise `KeyError`, which no claim exercises). -/
def Json.get (j : Json) (k : String) : Json :=
  match j with
  | Json.obj kvs =>
    match kvs.find? (fun p => p.1 == k) with
    | some p => p.2
    | none => Json.null
  | _ => Json.null

/-- A capability token as the client sees it: `_get_token_age` splits
the opaque string on `"."`, base64-decodes the payload and reads its
`"iat"` claim (seconds), swallowing every failure.  The token is
modelled by the outcome of that parse: `iat? = some iat` when the
embedded issue time is present and decodable, `iat? = none` for every
failure mode (missing segment, undecodable payload, no `"iat"` key). -/
structure AgentToken where
  iat? : Option Int
deriving DecidableEq, Repr

/-- `GatewayClient._get_token_age(token)` in milliseconds, with the
current time `int(time.time() * 1000)` passed as `nowMs`.  Every parse
failure yields age `0` ("assume it's recent"). -/
def get_token_age (nowMs : Int) (token : AgentToken) : Int :=
  match token.iat? with
  | some iat => nowMs - iat * 1000
  | none => 0

/-- The per-instance client state the proxy operations read. -/
structure ClientState where
  base_url : String
  agent_id : String
  current_intent : String
deriving DecidableEq, Repr

/-- Body of the `POST /api/generate-token` request built by
`get_token` (the source formats `expires_at` as an ISO timestamp of
`time.time() + ttl_minutes * 60`; the model keeps the epoch seconds). -/
structure GenTokenBody where
  agent_id : String
  tools : List String
  permissions : List String
  expires_at_s : Int
deriving DecidableEq, Repr

/-- Body of the `POST /api/proxy-request` request.  `intent?` is present
iff the client's current intent is non-empty (`if self.current_intent:`);
`proof_payload?` is present iff a non-empty override was supplied
(`if proof_payload_override:`, serialized with `json.dumps` in the
source); `isAsync` is the `"async": True` key added by `proxy_async`. -/
structure ProxyBody where
  agent_token : AgentToken
  tool : String
  action : String
  params : List (String × Json)
  intent? : Option String
  proof_payload? : Option (List (String × Json))
  isAsync : Bool

/-- One recorded `_make_request` call. -/
inductive PStep
  | generateToken (body : GenTokenBody)
  | proxyRequest (body : ProxyBody)

/-- The collaborator behind `_make_request` (gateway + retry pipeline):
what each of the two endpoints answers.  For `generate-token` the answer
is the token string of the response (as later parsed by
`_get_token_age`); for `proxy-request` it is the response JSON body. -/
structure GatewayEnv where
  generateToken : GenTokenBody → Except GatewayError AgentToken
  proxyRequest : ProxyBody → Except GatewayError Json

/-- The `get_token` request body proxy operations build when
auto-fetching: tools `[tool]`, permissions `["read", "write"]`, TTL 10
minutes. -/
def genTokenBody (st : ClientState) (nowMs : Int) (tool : String) : GenTokenBody :=
  { agent_id := st.agent_id
    tools := [tool]
    permissions := ["read", "write"]
    expires_at_s := nowMs / 1000 + 10 * 60 }

/-- The part of `GatewayClient.proxy` from the token-age check onward:
reject a token older than 24 hours with a `GatewayTokenError` *before*
the `/api/proxy-request` dispatch, otherwise build the body and
dispatch.  `pre` is the trace accumulated so far (the auto-fetch step,
if any); on success the client returns the `data` field of the response
envelope. -/
def proxy_dispatch (st : ClientState) (nowMs : Int) (tool action : String)
    (params : List (String × Json)) (token : AgentToken)
    (proof_payload_override : Option (List (String × Json)))
    (pre : List PStep) (env : GatewayEnv) : List PStep × Except GatewayError Json :=
  if get_token_age nowMs token > 24 * 60 * 60 * 1000 then
    (pre, Except.error (GatewayTokenError "Token is too old (older than 24h)"))
  else
    let body : ProxyBody :=
      { agent_token := token
        tool := tool
        action := action
        params := params
        intent? := if st.current_intent = "" then none else some st.current_intent
        proof_payload? :=
          match proof_payload_override with
          | some kvs => if kvs.isEmpty then none else some kvs
          | none => none
        isAsync := false }
    (pre ++ [PStep.proxyRequest body],
      (env.proxyRequest body).map (fun raw => raw.get "data"))

/-- `GatewayClient.proxy(tool, action, params, agent_token,
proof_payload_override)`: auto-fetch a token when none is supplied, then
age-check and dispatch. -/
def proxy (st : ClientState) (nowMs : Int) (tool action : String)
    (params : List (String × Json)) (agent_token : Option AgentToken)
    (proof_payload_override : Option (List (String × Json)))
    (env : GatewayEnv) : List PStep × Except GatewayError Json :=
  match agent_token with
  | some token =>
    proxy_dispatch st nowMs tool action params token proof_payload_override [] env
  | none =>
    let tb := genTokenBody st nowMs tool
    match env.generateToken tb with
    | Except.ok token =>
      proxy_dispatch st nowMs tool action params token proof_payload_override
        [PStep.generateToken tb] env
    | Except.error e => ([PStep.generateToken tb], Except.error e)

/-- The dispatch half of `GatewayClient.proxy_async`: build the body
(with `"async": True`) and dispatch — the source performs *no*
token-age check here; on success the client returns the `job_id` of the
response. -/
def proxy_async_dispatch (st : ClientState) (tool action : String)
    (params : List (String × Json)) (token : AgentToken)
    (pre : List PStep) (env : GatewayEnv) : List PStep × Except GatewayError Json :=
  let body : ProxyBody :=
    { agent_token := token
      tool := tool
      action := action
      params := params
      intent? := if st.current_intent = "" then none else some st.current_intent
      proof_payload? := none
      isAsync := true }
  (pre ++ [PStep.proxyRequest body],
    (env.proxyRequest body).map (fun raw => raw.get "job_id"))

/-- `GatewayClient.proxy_async(tool, action, params, agent_token)`. -/
def proxy_async (st : ClientState) (nowMs : Int) (tool action : String)
    (params : List (String × Json)) (agent_token : Option AgentToken)
    (env : GatewayEnv) : List PStep × Except GatewayError Json :=
  match agent_token with
  | some token => proxy_async_dispatch st tool action params token [] env
  | none =>
    let tb := genTokenBody st nowMs tool
    match env.generateToken tb with
    | Except.ok token =>
      proxy_async_dispatch st tool action params token [PStep.generateToken tb] env
    | Except.error e => ([PStep.generateToken tb], Except.error e)


/-! ### Concrete fixtures used by closed theorems and witnesses -/

/-- A client instance with no default intent. -/
def cexState : ClientState :=
  { base_url := "http://gateway", agent_id := "agent-1", current_intent := "" }

/-- A token whose embedded issue time is epoch second `0`. -/
def staleToken : AgentToken := { iat? := some 0 }

/-- An environment whose proxy endpoint answers a job id (used to
observe what the client dispatches). -/
def jobEnv : GatewayEnv :=
  { generateToken := fun _ => Except.error (GatewayError.base "unreachable")
    proxyRequest := fun _ => Except.ok (Json.obj [("job_id", Json.str "jid-1")]) }

/-! ### Lemmas about the retry loop

One unfolding lemma per branch of the loop body, then the inductive
facts the claims need. -/

/-- A successful attempt stops the loop at once. -/
theorem retryLoop_step_ok {α : Type} {fn : Nat → Except Exc α} {opts : RetryOptions}
    {rs : Nat → ℚ} {fuel attempt : Nat} {v : α} (h : fn attempt = Except.ok v) :
    retryLoop fn opts rs fuel attempt =
      { calls := attempt + 1, delays := [], result := Except.ok v } := by
  unfold retryLoop
  rw [h]

/-- A failure on the final attempt surfaces the error. -/
theorem retryLoop_step_last {α : Type} {fn : Nat → Except Exc α} {opts : RetryOptions}
    {rs : Nat → ℚ} {fuel attempt : Nat} {e : Exc} (h : fn attempt = Except.error e)
    (hl : attempt = opts.max_retries) :
    retryLoop fn opts rs fuel attempt =
      { calls := attempt + 1, delays := [], result := Except.error e } := by
  unfold retryLoop
  rw [h]
  dsimp only
  rw [if_pos hl]

/-- A non-retryable `GatewayError` on a non-final attempt surfaces the
error at once. -/
theorem retryLoop_step_blocked {α : Type} {fn : Nat → Except Exc α} {opts : RetryOptions}
    {rs : Nat → ℚ} {fuel attempt : Nat} {e : Exc} (h : fn attempt = Except.error e)
    (hl : ¬ attempt = opts.max_retries) (hb : excRetryBlocked e = true) :
    retryLoop fn opts rs fuel attempt =
      { calls := attempt + 1, delays := [], result := Except.error e } := by
  unfold retryLoop
  rw [h]
  dsimp only
  rw [if_neg hl, if_pos hb]

/-- A retried failure on a non-final attempt sleeps the backoff delay
and continues with the next attempt. -/
theorem retryLoop_step_retry {α : Type} {fn : Nat → Except Exc α} {opts : RetryOptions}
    {rs : Nat → ℚ} {f attempt : Nat} {e : Exc} (h : fn attempt = Except.error e)
    (hl : ¬ attempt = opts.max_retries) (hb : excRetryBlocked e = false) :
    retryLoop fn opts rs (f + 1) attempt =
      { calls := (retryLoop fn opts rs f (attempt + 1)).calls
        delays := calculate_delay attempt opts (rs attempt) ::
          (retryLoop fn opts rs f (attempt + 1)).delays
        result := (retryLoop fn opts rs f (attempt + 1)).result } := by
  conv_lhs => unfold retryLoop
  rw [h]
  dsimp only
  rw [if_neg hl, if_neg (by simp [hb])]

/-- The out-of-fuel fallback (unreachable from `with_retry`, like the
trailing `raise last_error` in the source). -/
theorem retryLoop_step_zero {α : Type} {fn : Nat → Except Exc α} {opts : RetryOptions}
    {rs : Nat → ℚ} {attempt : Nat} {e : Exc} (h : fn attempt = Except.error e)
    (hl : ¬ attempt = opts.max_retries) (hb : excRetryBlocked e = false) :
    retryLoop fn opts rs 0 attempt =
      { calls := attempt + 1, delays := [], result := Except.error e } := by
  unfold retryLoop
  rw [h]
  dsimp only
  rw [if_neg hl, if_neg (by simp [hb])]

/-- The loop performs at most `fuel + 1` further attempts: starting at
index `attempt`, the total number of operation invocations is at most
`attempt + fuel + 1`. -/
theorem retryLoop_calls_le {α : Type} (fn : Nat → Except Exc α) (opts : RetryOptions)
    (rs : Nat → ℚ) :
    ∀ fuel attempt, (retryLoop fn opts rs fuel attempt).calls ≤ attempt + fuel + 1 := by
  intro fuel
  induction fuel with
  | zero =>
    intro attempt
    cases h : fn attempt with
    | ok v => rw [retryLoop_step_ok h]
    | error e =>
      by_cases hl : attempt = opts.max_retries
      · rw [retryLoop_step_last h hl]
      · cases hb : excRetryBlocked e with
        | true => rw [retryLoop_step_blocked h hl hb]
        | false => rw [retryLoop_step_zero h hl hb]
  | succ f ih =>
    intro attempt
    cases h : fn attempt with
    | ok v => rw [retryLoop_step_ok h]; dsimp only; omega
    | error e =>
      by_cases hl : attempt = opts.max_retries
      · rw [retryLoop_step_last h hl]; dsimp only; omega
      · cases hb : excRetryBlocked e with
        | true => rw [retryLoop_step_blocked h hl hb]; dsimp only; omega
        | false =>
          rw [retryLoop_step_retry h hl hb]
          have := ih (attempt + 1)
          dsimp only
          omega

/-- If every attempt before index `a` fails with an error the loop
retries, and attempt `a` succeeds, the loop stops right there: `a + 1`
invocations and the success value. -/
theorem retryLoop_first_ok {α : Type} (fn : Nat → Except Exc α) (opts : RetryOptions)
    (rs : Nat → ℚ) :
    ∀ (fuel attempt a : Nat) (v : α),
      attempt ≤ a → a ≤ attempt + fuel → a ≤ opts.max_retries →
      (∀ j, attempt ≤ j → j < a → ∃ e, fn j = Except.error e ∧ excRetryBlocked e = false) →
      fn a = Except.ok v →
      (retryLoop fn opts rs fuel attempt).calls = a + 1 ∧
        (retryLoop fn opts rs fuel attempt).result = Except.ok v := by
  intro fuel
  induction fuel with
  | zero =>
    intro attempt a v h1 h2 h3 hcont hok
    have ha : a = attempt := by omega
    subst ha
    rw [retryLoop_step_ok hok]
    exact ⟨rfl, rfl⟩
  | succ f ih =>
    intro attempt a v h1 h2 h3 hcont hok
    by_cases heq : attempt = a
    · subst heq
      rw [retryLoop_step_ok hok]
      exact ⟨rfl, rfl⟩
    · have hlt : attempt < a := by omega
      obtain ⟨e, he, hb⟩ := hcont attempt le_rfl hlt
      have hne : ¬ attempt = opts.max_retries := by omega
      rw [retryLoop_step_retry he hne hb]
      exact ih (attempt + 1) a v (by omega) (by omega) h3
        (fun j hj1 hj2 => hcont j (by omega) hj2) hok

/-- If every attempt strictly before the final index fails with a
retried error and the final attempt fails too, the loop runs all
`max_retries + 1` attempts, sleeps the backoff after each non-final
one, and surfaces the final error. -/
theorem retryLoop_final {α : Type} (fn : Nat → Except Exc α) (opts : RetryOptions)
    (rs : Nat → ℚ) :
    ∀ (fuel attempt : Nat) (e : Exc),
      attempt + fuel = opts.max_retries →
      (∀ j, attempt ≤ j → j < opts.max_retries →
        ∃ e', fn j = Except.error e' ∧ excRetryBlocked e' = false) →
      fn opts.max_retries = Except.error e →
      retryLoop fn opts rs fuel attempt =
        { calls := opts.max_retries + 1
          delays := delaysFrom opts rs attempt fuel
          result := Except.error e } := by
  intro fuel
  induction fuel with
  | zero =>
    intro attempt e hsum hcont hfin
    have ha : attempt = opts.max_retries := by omega
    subst ha
    rw [retryLoop_step_last hfin rfl]
    simp [delaysFrom]
  | succ f ih =>
    intro attempt e hsum hcont hfin
    have hlt : attempt < opts.max_retries := by omega
    obtain ⟨e', he', hb⟩ := hcont attempt le_rfl hlt
    have hne : ¬ attempt = opts.max_retries := by omega
    rw [retryLoop_step_retry he' hne hb]
    rw [ih (attempt + 1) e (by omega) (fun j hj1 hj2 => hcont j (by omega) hj2) hfin]
    simp [delaysFrom]

/-- `delaysFrom` written as a map over attempt indices. -/
theorem delaysFrom_eq_map (opts : RetryOptions) (rs : Nat → ℚ) :
    ∀ fuel attempt,
      delaysFrom opts rs attempt fuel =
        (List.range fuel).map
          (fun i => calculate_delay (attempt + i) opts (rs (attempt + i))) := by
  intro fuel
  induction fuel with
  | zero => intro a; simp [delaysFrom]
  | succ f ih =>
    intro a
    rw [delaysFrom, ih (a + 1), List.range_succ_eq_map, List.map_cons, List.map_map,
      Nat.add_zero]
    refine congrArg (List.cons _) (List.map_congr_left (fun i _ => ?_))
    have harg : a + 1 + i = a + (i + 1) := by omega
    simp [Function.comp, harg]

/-! ### Claim theorems -/

/-- C3: for every operation that always raises a non-retryable Gateway
error (e.g. a rate-limit error or an auth error) and every
`max_retries ≥ 1`, `with_retry` invokes the operation exactly once and
surfaces that same error immediately, with no backoff wait. -/
theorem with_retry_nonretryable_single_attempt {α : Type}
    (fn : Nat → Except Exc α) (g : GatewayError) (opts : RetryOptions) (rs : Nat → ℚ)
    (hfn : ∀ n, fn n = Except.error (Exc.gw g))
    (hnr : is_retryable_error g = false)
    (hmr : 1 ≤ opts.max_retries) :
    with_retry fn opts rs =
      { calls := 1, delays := [], result := Except.error (Exc.gw g) } := by
  have hb : excRetryBlocked (Exc.gw g) = true := by simp [excRetryBlocked, hnr]
  have hl : ¬ (0 = opts.max_retries) := by omega
  unfold with_retry
  rw [retryLoop_step_blocked (hfn 0) hl hb]

/-- Witness for C3 at a concrete rate-limit error and the default
options (`max_retries = 3`). -/
theorem with_retry_nonretryable_single_attempt_witness :
    with_retry
        (fun _ => (Except.error (Exc.gw (GatewayRateLimitError "rate limited" none (some 429))) :
          Except Exc Nat))
        {} (fun _ => 0) =
      { calls := 1, delays := []
        result := Except.error (Exc.gw (GatewayRateLimitError "rate limited" none (some 429))) } :=
  with_retry_nonretryable_single_attempt _ _ {} _ (fun _ => rfl) rfl (by norm_num)

/-- C4: `with_retry` invokes the operation at most `max_retries + 1`
times; it returns the operation's result on the first successful
attempt with no further attempts; after the final attempt it re-raises
the last error instead of retrying; and with `max_retries = 3` and an
operation failing with a network error on attempts 0–2 and succeeding
on attempt 3, it performs exactly 4 attempts and returns success. -/
theorem with_retry_attempt_accounting :
    (∀ (α : Type) (fn : Nat → Except Exc α) (opts : RetryOptions) (rs : Nat → ℚ),
        (with_retry fn opts rs).calls ≤ opts.max_retries + 1) ∧
    (∀ (α : Type) (fn : Nat → Except Exc α) (opts : RetryOptions) (rs : Nat → ℚ)
        (a : Nat) (v : α),
        a ≤ opts.max_retries →
        (∀ j, j < a → ∃ e, fn j = Except.error e ∧ excRetryBlocked e = false) →
        fn a = Except.ok v →
        (with_retry fn opts rs).calls = a + 1 ∧
          (with_retry fn opts rs).result = Except.ok v) ∧
    (∀ (α : Type) (fn : Nat → Except Exc α) (opts : RetryOptions) (rs : Nat → ℚ) (e : Exc),
        (∀ j, j < opts.max_retries → ∃ e', fn j = Except.error e' ∧ excRetryBlocked e' = false) →
        fn opts.max_retries = Except.error e →
        (with_retry fn opts rs).calls = opts.max_retries + 1 ∧
          (with_retry fn opts rs).result = Except.error e) ∧
    (with_retry
        (fun n => if n < 3 then
            Except.error (Exc.gw (GatewayNetworkError "connection refused" none))
          else Except.ok 7)
        { jitter := false } (fun _ => 0) =
      { calls := 4, delays := [1, 2, 4], result := Except.ok 7 }) := by
  refine ⟨?_, ?_, ?_, ?_⟩
  · intro α fn opts rs
    have := retryLoop_calls_le fn opts rs opts.max_retries 0
    unfold with_retry
    omega
  · intro α fn opts rs a v ha hcont hok
    exact retryLoop_first_ok fn opts rs opts.max_retries 0 a v (by omega) (by omega) ha
      (fun j _ hj => hcont j hj) hok
  · intro α fn opts rs e hcont hfin
    unfold with_retry
    rw [retryLoop_final fn opts rs opts.max_retries 0 e (by omega)
      (fun j _ hj => hcont j hj) hfin]
    exact ⟨rfl, rfl⟩
  · have hk : ¬ (ErrorKind.network = ErrorKind.rateLimit) := by decide
    norm_num [with_retry, retryLoop, calculate_delay, excRetryBlocked,
      is_retryable_error, GatewayNetworkError, hk]

/-- Witness for C4 (the success-stops-the-loop part, at a concrete
operation failing once with a network error and then succeeding). -/
theorem with_retry_attempt_accounting_witness :
    (with_retry
        (fun n => if n = 0 then
            Except.error (Exc.gw (GatewayNetworkError "connection refused" none))
          else (Except.ok 5 : Except Exc Nat))
        {} (fun _ => 0)).calls = 2 ∧
    (with_retry
        (fun n => if n = 0 then
            Except.error (Exc.gw (GatewayNetworkError "connection refused" none))
          else (Except.ok 5 : Except Exc Nat))
        {} (fun _ => 0)).result = Except.ok 5 :=
  with_retry_attempt_accounting.2.1 Nat _ {} (fun _ => 0) 1 5 (by norm_num)
    (fun j hj => ⟨Exc.gw (GatewayNetworkError "connection refused" none), by
      have hj0 : j = 0 := by omega
      subst hj0
      exact ⟨rfl, rfl⟩⟩)
    rfl

/-- C10: a raised exception that is not a Gateway error is always
retried (no retryability classification is applied to it, the computed
backoff is slept after every non-final attempt), so an operation that
always raises a non-Gateway exception is invoked the full
`max_retries + 1` times before the last exception is surfaced. -/
theorem with_retry_non_gateway_exception_retried (α : Type) (t m : Nat → String)
    (opts : RetryOptions) (rs : Nat → ℚ) :
    with_retry (fun n => (Except.error (Exc.py (t n) (m n)) : Except Exc α)) opts rs =
      { calls := opts.max_retries + 1
        delays := (List.range opts.max_retries).map (fun i => calculate_delay i opts (rs i))
        result := Except.error (Exc.py (t opts.max_retries) (m opts.max_retries)) } := by
  unfold with_retry
  rw [retryLoop_final _ opts rs opts.max_retries 0 _ (by omega)
    (fun j _ _ => ⟨Exc.py (t j) (m j), rfl, rfl⟩) rfl]
  rw [delaysFrom_eq_map]
  simp

/-- C8: with jitter disabled the backoff delay for attempt index `i` is
exactly `min (base_delay * 2 ^ i) max_delay`; for indices 0, 1, 2 with
`base_delay = 1, max_delay = 10` the delays are 1, 2, 4, and with
`max_delay = 3` they are 1, 2, 3. -/
theorem calculate_delay_no_jitter :
    (∀ (i : Nat) (opts : RetryOptions) (r : ℚ), opts.jitter = false →
        calculate_delay i opts r = min (opts.base_delay * 2 ^ i) opts.max_delay) ∧
    (calculate_delay 0 { jitter := false } 0 = 1 ∧
      calculate_delay 1 { jitter := false } 0 = 2 ∧
      calculate_delay 2 { jitter := false } 0 = 4) ∧
    (calculate_delay 0 { max_delay := 3, jitter := false } 0 = 1 ∧
      calculate_delay 1 { max_delay := 3, jitter := false } 0 = 2 ∧
      calculate_delay 2 { max_delay := 3, jitter := false } 0 = 3) := by
  refine ⟨fun i opts r hj => ?_, ⟨?_, ?_, ?_⟩, ⟨?_, ?_, ?_⟩⟩
  · simp [calculate_delay, hj]
  all_goals norm_num [calculate_delay]

/-- Witness for C8 at attempt index 2 with the `max_delay = 3`
configuration. -/
theorem calculate_delay_no_jitter_witness :
    calculate_delay 2 { max_delay := 3, jitter := false } 0 =
      min (({ max_delay := 3, jitter := false } : RetryOptions).base_delay * 2 ^ 2)
        ({ max_delay := 3, jitter := false } : RetryOptions).max_delay :=
  calculate_delay_no_jitter.1 2 { max_delay := 3, jitter := false } 0 rfl

/-- C9 (evaluation at the failing input): with jitter enabled and the
default configuration, the code computes
`delay + delay * 0.25 * (r - 0.5)`, i.e. a ±12.5 % band.  At the
extreme draw `r = 0` the delay for attempt 0 is `7/8` of the base delay
(not the `3/4` that a ±25 % jitter band would reach), at `r = 1/2` it
is the un-jittered delay, and at `r = 0` for attempt 2 it is `7/2`. -/
theorem calculate_delay_jitter_is_eighth :
    calculate_delay 0 ({} : RetryOptions) 0 = 7 / 8 ∧
    calculate_delay 0 ({} : RetryOptions) (1 / 2) = 1 ∧
    calculate_delay 2 ({} : RetryOptions) 0 = 7 / 2 := by
  refine ⟨?_, ?_, ?_⟩ <;> norm_num [calculate_delay]

/-- C5 (counterexample to the claim as stated): the retryability
predicate does *not* return false for every Auth error — an Auth error
carrying status code 500 is classified retryable by the `≥ 500`
catch-all. -/
theorem is_retryable_error_auth_500_retryable :
    is_retryable_error (GatewayAuthError "auth failed" (some 500)) = true := by
  decide

/-- C5 (amended): the predicate returns true exactly for the
non-rate-limit errors that are network-coded, upstream, or carry a
status code ≥ 500; rate-limit errors are never retryable; network and
upstream errors always are; and auth, policy, and token errors are
non-retryable exactly when their status code is absent or below 500
(which is always the case for classifier-produced errors). -/
theorem is_retryable_error_characterization :
    (∀ e : GatewayError, is_retryable_error e = true ↔
        (¬ e.kind = ErrorKind.rateLimit ∧
          (e.code = some "NETWORK_ERROR" ∨ e.kind = ErrorKind.upstream ∨
            ∃ s, e.status_code = some s ∧ 500 ≤ s))) ∧
    (∀ msg ra st, is_retryable_error (GatewayRateLimitError msg ra st) = false) ∧
    (∀ msg orig, is_retryable_error (GatewayNetworkError msg orig) = true) ∧
    (∀ msg st, is_retryable_error (GatewayUpstreamError msg st) = true) ∧
    (∀ msg st, (∀ s, st = some s → s < 500) →
        is_retryable_error (GatewayAuthError msg st) = false ∧
        is_retryable_error (GatewayPolicyError msg st) = false ∧
        is_retryable_error (GatewayTokenError msg st) = false) := by
  refine ⟨?_, ?_, ?_, ?_, ?_⟩
  · intro e
    unfold is_retryable_error
    split_ifs with h1 h2 h3
    · simp [h1]
    · simp [h1, h2]
    · simp [h1, h2, h3]
    · cases hs : e.status_code with
      | none => simp [h1, h2, h3, hs]
      | some s => simp [h1, h2, h3, hs]
  · intro msg ra st
    simp [is_retryable_error, GatewayRateLimitError]
  · intro msg orig
    simp [is_retryable_error, GatewayNetworkError]
  · intro msg st
    simp [is_retryable_error, GatewayUpstreamError]
  · intro msg st hlt
    refine ⟨?_, ?_, ?_⟩ <;>
      · cases st with
        | none =>
          simp [is_retryable_error, GatewayAuthError, GatewayPolicyError, GatewayTokenError]
        | some s =>
          have hs := hlt s rfl
          simp [is_retryable_error, GatewayAuthError, GatewayPolicyError, GatewayTokenError]
          omega

/-- Witness for C5 (amended) at a classifier-shaped auth error with
status 401. -/
theorem is_retryable_error_characterization_witness :
    is_retryable_error (GatewayAuthError "forbidden" (some 401)) = false ∧
    is_retryable_error (GatewayPolicyError "forbidden" (some 401)) = false ∧
    is_retryable_error (GatewayTokenError "forbidden" (some 401)) = false :=
  is_retryable_error_characterization.2.2.2.2 "forbidden" (some 401)
    (fun s hs => by injection hs with h; omega)

/-- C6: the classifier maps every status code and server message to
exactly one error variant — 401/403 to Auth; 429 to RateLimit (stated
for the default absent `Retry-After` argument; the header handling is
the subject of C7); 400 with a message containing "policy" or "scope"
case-insensitively to Policy, any other 400 to a Generic error with
status 400; 502/503/504 to Upstream; every remaining status to a
Generic error carrying the status and message. -/
theorem create_error_classification :
    ∀ (s : Int) (m : String) (ra : Option String),
      ((s = 401 ∨ s = 403) →
        create_error_from_response s m ra = Except.ok (GatewayAuthError m (some s))) ∧
      (s = 429 →
        create_error_from_response s m none =
          Except.ok (GatewayRateLimitError m none (some s))) ∧
      (s = 400 →
        (strContains (strLower m) "policy" ∨ strContains (strLower m) "scope") →
        create_error_from_response s m ra = Except.ok (GatewayPolicyError m (some s))) ∧
      (s = 400 →
        ¬ (strContains (strLower m) "policy" ∨ strContains (strLower m) "scope") →
        create_error_from_response s m ra = Except.ok (GatewayError.base m (some s))) ∧
      ((s = 502 ∨ s = 503 ∨ s = 504) →
        create_error_from_response s m ra = Except.ok (GatewayUpstreamError m (some s))) ∧
      (¬ (s = 401 ∨ s = 403) → ¬ s = 429 → ¬ s = 400 → ¬ (s = 502 ∨ s = 503 ∨ s = 504) →
        create_error_from_response s m ra = Except.ok (GatewayError.base m (some s))) := by
  intro s m ra
  refine ⟨?_, ?_, ?_, ?_, ?_, ?_⟩
  · rintro (rfl | rfl) <;> simp [create_error_from_response]
  · rintro rfl
    simp [create_error_from_response]
  · rintro rfl hpol
    simp [create_error_from_response, hpol]
  · rintro rfl hneg
    simp [create_error_from_response, hneg]
  · rintro (rfl | rfl | rfl) <;> simp [create_error_from_response]
  · intro h1 h2 h3 h4
    simp [create_error_from_response, h1, h2, h3, h4]

/-- Witness for C6 at status 401. -/
theorem create_error_classification_witness :
    create_error_from_response 401 "unauthorized" none =
      Except.ok (GatewayAuthError "unauthorized" (some 401)) :=
  (create_error_classification 401 "unauthorized" none).1 (Or.inl rfl)

/-- C7 (counterexample to the claim as stated): on a 429 response with
the unparseable `Retry-After` value `"abc"` the classifier does not
return a RateLimit error with `retry_after` unset — it raises the
`ValueError` out of `int()`. -/
theorem create_error_malformed_retry_after_raises :
    create_error_from_response 429 "rate limited" (some "abc") =
      Except.error (Exc.py "ValueError" "abc") ∧
    ¬ create_error_from_response 429 "rate limited" (some "abc") =
        Except.ok (GatewayRateLimitError "rate limited" none (some 429)) := by
  have h1 : create_error_from_response 429 "rate limited" (some "abc") =
      Except.error (Exc.py "ValueError" "abc") := by
    simp [create_error_from_response, show pyInt "abc" = none from by decide]
  refine ⟨h1, ?_⟩
  rw [h1]
  simp

/-- C7 (amended): for a 429 response the classifier returns a RateLimit
error with `retry_after` taken from the `Retry-After` header when the
header is present, non-empty, and parseable as an integer, and with
`retry_after` unset when the header is absent or empty; when the header
is present, non-empty, and not parseable as an integer, the classifier
raises a `ValueError` instead of returning. -/
theorem create_error_429_retry_after :
    ∀ (m ra : String),
      (create_error_from_response 429 m none =
        Except.ok (GatewayRateLimitError m none (some 429))) ∧
      (create_error_from_response 429 m (some "") =
        Except.ok (GatewayRateLimitError m none (some 429))) ∧
      (∀ n, ¬ ra = "" → pyInt ra = some n →
        create_error_from_response 429 m (some ra) =
          Except.ok (GatewayRateLimitError m (some n) (some 429))) ∧
      (¬ ra = "" → pyInt ra = none →
        create_error_from_response 429 m (some ra) = Except.error (Exc.py "ValueError" ra)) := by
  intro m ra
  refine ⟨?_, ?_, fun n hne hp => ?_, fun hne hp => ?_⟩
  · simp [create_error_from_response]
  · simp [create_error_from_response]
  · simp [create_error_from_response, hne, hp]
  · simp [create_error_from_response, hne, hp]

/-- Witness for C7 (amended) at the parseable header value `"7"`. -/
theorem create_error_429_retry_after_witness :
    create_error_from_response 429 "slow down" (some "7") =
      Except.ok (GatewayRateLimitError "slow down" (some 7) (some 429)) :=
  (create_error_429_retry_after "slow down" "7").2.2.1 7 (by decide) (by decide)

/-- C2: a call to `proxy` with a supplied token whose embedded `iat` is
25 hours in the past raises the Token error before any HTTP request is
issued — the trace of transport calls is empty. -/
theorem proxy_rejects_25h_token_before_any_request
    (st : ClientState) (nowMs iat : Int) (tool action : String)
    (params : List (String × Json)) (pp : Option (List (String × Json)))
    (env : GatewayEnv)
    (hage : nowMs - iat * 1000 = 25 * 60 * 60 * 1000) :
    proxy st nowMs tool action params (some { iat? := some iat }) pp env =
      ([], Except.error (GatewayTokenError "Token is too old (older than 24h)")) := by
  have hgt : get_token_age nowMs { iat? := some iat } > 24 * 60 * 60 * 1000 := by
    have hval : get_token_age nowMs { iat? := some iat } = nowMs - iat * 1000 := rfl
    rw [hval, hage]
    norm_num
  unfold proxy
  dsimp only
  unfold proxy_dispatch
  rw [if_pos hgt]

/-- Witness for C2: current time 25 hours (in milliseconds) past a
token issued at epoch second 0. -/
theorem proxy_rejects_25h_token_before_any_request_witness :
    proxy cexState 90000000 "serpapi" "search" [] (some { iat? := some 0 }) none jobEnv =
      ([], Except.error (GatewayTokenError "Token is too old (older than 24h)")) :=
  proxy_rejects_25h_token_before_any_request cexState 90000000 0 "serpapi" "search"
    [] none jobEnv (by norm_num)

/-- C1 (counterexample to the claim as stated): `proxy_async`, given a
supplied token 25 hours old, performs no token-age check — it sends the
stale token to the gateway (the trace contains the proxy request
carrying it) and succeeds instead of raising a Token error. -/
theorem proxy_async_sends_25h_old_token :
    (proxy_async cexState 90000000 "serpapi" "search" [] (some staleToken) jobEnv).1 =
      [PStep.proxyRequest
        { agent_token := staleToken, tool := "serpapi", action := "search", params := []
          intent? := none, proof_payload? := none, isAsync := true }] ∧
    (proxy_async cexState 90000000 "serpapi" "search" [] (some staleToken) jobEnv).2 =
      Except.ok (Json.str "jid-1") ∧
    get_token_age 90000000 staleToken > 24 * 60 * 60 * 1000 := by
  refine ⟨rfl, rfl, by norm_num [get_token_age, staleToken]⟩

/-- C1 (amended): the 24-hour token-age gate protects `proxy` only —
there, a token whose embedded issue time is more than 24 hours in the
past (whether supplied by the caller or returned by the auto-fetch) is
rejected with the Token error before the proxy request is dispatched —
while `proxy_async` performs no age check and always dispatches a
supplied token. -/
theorem stale_token_gate_covers_proxy_only :
    (∀ (st : ClientState) (nowMs iat : Int) (tool action : String)
        (params : List (String × Json)) (pp : Option (List (String × Json)))
        (env : GatewayEnv) (token : AgentToken),
        token.iat? = some iat → nowMs - iat * 1000 > 24 * 60 * 60 * 1000 →
        proxy st nowMs tool action params (some token) pp env =
          ([], Except.error (GatewayTokenError "Token is too old (older than 24h)"))) ∧
    (∀ (st : ClientState) (nowMs iat : Int) (tool action : String)
        (params : List (String × Json)) (pp : Option (List (String × Json)))
        (env : GatewayEnv) (token : AgentToken),
        env.generateToken (genTokenBody st nowMs tool) = Except.ok token →
        token.iat? = some iat → nowMs - iat * 1000 > 24 * 60 * 60 * 1000 →
        proxy st nowMs tool action params none pp env =
          ([PStep.generateToken (genTokenBody st nowMs tool)],
            Except.error (GatewayTokenError "Token is too old (older than 24h)"))) ∧
    (∀ (st : ClientState) (nowMs : Int) (tool action : String)
        (params : List (String × Json)) (env : GatewayEnv) (token : AgentToken),
        (proxy_async st nowMs tool action params (some token) env).1 =
          [PStep.proxyRequest
            { agent_token := token, tool := tool, action := action, params := params
              intent? := if st.current_intent = "" then none else some st.current_intent
              proof_payload? := none, isAsync := true }]) := by
  refine ⟨?_, ?_, ?_⟩
  · intro st nowMs iat tool action params pp env token hiat hage
    have hgt : get_token_age nowMs token > 24 * 60 * 60 * 1000 := by
      have hval : get_token_age nowMs token = nowMs - iat * 1000 := by
        simp [get_token_age, hiat]
      rw [hval]
      exact hage
    unfold proxy
    dsimp only
    unfold proxy_dispatch
    rw [if_pos hgt]
  · intro st nowMs iat tool action params pp env token henv hiat hage
    have hgt : get_token_age nowMs token > 24 * 60 * 60 * 1000 := by
      have hval : get_token_age nowMs token = nowMs - iat * 1000 := by
        simp [get_token_age, hiat]
      rw [hval]
      exact hage
    unfold proxy
    dsimp only
    rw [henv]
    dsimp only
    unfold proxy_dispatch
    rw [if_pos hgt]
  · intro st nowMs tool action params env token
    unfold proxy_async
    dsimp only
    unfold proxy_async_dispatch
    dsimp only
    rw [List.nil_append]

/-- Witness for C1 (amended): `proxy` rejects a supplied token issued
25 hours ago. -/
theorem stale_token_gate_covers_proxy_only_witness :
    proxy cexState 90000000 "serpapi" "search" [] (some staleToken) none jobEnv =
      ([], Except.error (GatewayTokenError "Token is too old (older than 24h)")) :=
  stale_token_gate_covers_proxy_only.1 cexState 90000000 0 "serpapi" "search" [] none
    jobEnv staleToken rfl (by norm_num)

end RunrGateway
